import Mathlib

/-!
Verification of `pipeline/status_ui.py` (App Engine Pipeline status UI).

The module has two cores: a static resource resolver (`statusui_handler`)
and a JSON-RPC dispatch wrapper (`_rpc_handler`) enforcing authorization,
anti-forgery, and exception-to-JSON error translation.  We give a shallow
embedding of the module: process-wide flags (`pipeline._ENFORCE_AUTH`,
`pipeline._DEBUG`) become a `Config` record, the `google.appengine.api.users`
service and the filesystem/zip environment become explicit records of
(pure) functions, Python exceptions become an explicit `PyExc` value
threaded through `Except`, and Django response constructors become
builders of an `HttpResponse` record.
-/

namespace StatusUI

/-- A JSON value: the output universe of `json.dumps`. -/
inductive JsonVal where
  | str : String → JsonVal
  | num : Int → JsonVal
  | bool : Bool → JsonVal
  | null : JsonVal
  | arr : List JsonVal → JsonVal
  | obj : List (String × JsonVal) → JsonVal
deriving Repr

/-- Escaping of a single character inside a JSON string literal,
as `json.dumps` performs it for the characters that can actually occur here. -/
def escChar (c : Char) : String :=
  if c = '"' then "\\\""
  else if c = '\\' then "\\\\"
  else if c = '\n' then "\\n"
  else if c = '\t' then "\\t"
  else if c = '\r' then "\\r"
  else String.singleton c

/-- Rendering of a JSON string literal with quotes and escapes. -/
def renderStr (s : String) : String :=
  "\"" ++ String.join (s.toList.map escChar) ++ "\""

mutual

/-- Serialization of a JSON value to its textual form
(object fields in insertion order, `", "` and `": "` separators,
matching `json.dumps`' defaults). -/
def JsonVal.render : JsonVal → String
  | .str s => renderStr s
  | .num n => toString n
  | .bool b => if b then "true" else "false"
  | .null => "null"
  | .arr xs => "[" ++ renderItems xs ++ "]"
  | .obj fs => "\x7b" ++ renderFields fs ++ "\x7d"

/-- Renders the comma-separated items of a JSON array. -/
def renderItems : List JsonVal → String
  | [] => ""
  | [x] => JsonVal.render x
  | x :: y :: rest => JsonVal.render x ++ ", " ++ renderItems (y :: rest)

/-- Renders the comma-separated `"key": value` fields of a JSON object. -/
def renderFields : List (String × JsonVal) → String
  | [] => ""
  | [(k, v)] => renderStr k ++ ": " ++ JsonVal.render v
  | (k, v) :: y :: rest =>
      renderStr k ++ ": " ++ JsonVal.render v ++ ", " ++ renderFields (y :: rest)

end

/-- A string is well-formed JSON when it is the rendering of some JSON value. -/
def wellFormedJson (s : String) : Prop :=
  ∃ j : JsonVal, JsonVal.render j = s

/-- A Python exception as observed by the `except` block of `_rpc_handler`:
`e.__class__.__name__`, `str(e)`, and `traceback.format_exc()`. -/
structure PyExc where
  cls : String
  msg : String
  trace : String
deriving Repr, DecidableEq

/-- The universe of Python values a wrapped RPC handler can return
(and that `json.dumps(..., cls=util.JsonEncoder)` is fed):
JSON-native primitives, datetimes (which the encoder degrades to strings),
opaque engine objects that are not JSON-serializable, dicts and lists. -/
inductive PyVal where
  | str : String → PyVal
  | int : Int → PyVal
  | bool : Bool → PyVal
  | none : PyVal
  | datetime : String → PyVal
  | obj : String → PyVal
  | dict : List (String × PyVal) → PyVal
  | list : List PyVal → PyVal
deriving Repr

/-- Modelled from the spec: `util.JsonEncoder` (the module imports `util`,
whose source is not part of this file) is "a serializer aware of
domain-specific non-primitive types (at minimum: date/time values, and
opaque engine-defined identifier/status objects) so they degrade to stable
string/number representations".  We model datetimes as degrading to their
string representation, while a truly opaque object (`PyVal.obj`) makes the
encoder raise `TypeError`, exactly as `json.dumps` does on an object no
encoder handles. -/
def jsonEncode : PyVal → Except PyExc JsonVal
  | .str s => .ok (.str s)
  | .int n => .ok (.num n)
  | .bool b => .ok (.bool b)
  | .none => .ok .null
  | .datetime s => .ok (.str s)
  | .obj cls =>
      .error { cls := "TypeError"
               msg := cls ++ " is not JSON serializable"
               trace := "Traceback (most recent call last): TypeError: " ++
                        cls ++ " is not JSON serializable" }
  | .dict fs => (encodeFields fs).map JsonVal.obj
  | .list xs => (encodeItems xs).map JsonVal.arr
where
  /-- Encodes the fields of a Python dict, failing on the first bad value. -/
  encodeFields : List (String × PyVal) → Except PyExc (List (String × JsonVal))
    | [] => .ok []
    | (k, v) :: rest => do
        let v2 ← jsonEncode v
        let rest2 ← encodeFields rest
        .ok ((k, v2) :: rest2)
  /-- Encodes the items of a Python list, failing on the first bad value. -/
  encodeItems : List PyVal → Except PyExc (List JsonVal)
    | [] => .ok []
    | v :: rest => do
        let v2 ← jsonEncode v
        let rest2 ← encodeItems rest
        .ok (v2 :: rest2)

/-- `json.dumps(v, cls=util.JsonEncoder)`: encode, then serialize to text;
raises (returns `.error`) when some value is not serializable. -/
def json_dumps (v : PyVal) : Except PyExc String :=
  (jsonEncode v).map JsonVal.render

/-- A Django HTTP response, reduced to the observables the module sets:
status code, body, `Content-Type`, `Cache-Control`, and redirect target. -/
structure HttpResponse where
  status : Nat
  content : String
  content_type : Option String
  cache_control : Option String
  location : Option String
deriving Repr, DecidableEq

/-- `django.http.HttpResponse(content=..., content_type=...)`: status 200,
no cache directive, no redirect target. -/
def mkHttpResponse (content : String) (ct : Option String) : HttpResponse :=
  { status := 200, content := content, content_type := ct,
    cache_control := none, location := none }

/-- `django.http.HttpResponseForbidden(content=...)`: status 403. -/
def HttpResponseForbidden (content : String) : HttpResponse :=
  { status := 403, content := content, content_type := none,
    cache_control := none, location := none }

/-- `django.http.HttpResponseNotFound()`: status 404, empty body. -/
def HttpResponseNotFound : HttpResponse :=
  { status := 404, content := "", content_type := none,
    cache_control := none, location := none }

/-- `django.shortcuts.redirect(url)`: status 302 with a `Location` target. -/
def redirect (url : String) : HttpResponse :=
  { status := 302, content := "", content_type := none,
    cache_control := none, location := some url }

/-- The `google.appengine.api.users` service, as this module consults it:
the current principal (if any), whether that principal is an administrator,
and `users.create_login_url(dest)`. -/
structure Users where
  current_user : Option String
  user_is_admin : Bool
  create_login_url : String → String

/-- `users.is_current_user_admin()`: `False` whenever no user is signed in,
otherwise whether the signed-in user is an administrator. -/
def Users.is_current_user_admin (u : Users) : Bool :=
  u.current_user.isSome && u.user_is_admin

/-- The process-wide flags read on every request:
`pipeline._ENFORCE_AUTH` and `pipeline._DEBUG`. -/
structure Config where
  enforce_auth : Bool
  debug : Bool
deriving Repr, DecidableEq

/-- An inbound HTTP request, reduced to what the module reads:
the GET query dict, `request.is_ajax()` (presence of the
`X-Requested-With` marker header), and `request.build_absolute_uri()`. -/
structure Request where
  get_params : List (String × String)
  has_xhr_header : Bool
  uri : String

/-- `request.GET.get(key)`: first binding of `key`, else `None`. -/
def Request.get (r : Request) (key : String) : Option String :=
  (r.get_params.find? (fun p => p.fst = key)).map Prod.snd

/-- `_RESOURCE_MAP`: the fixed logical-path → (relative path, content type)
table, verbatim from the source. -/
def _RESOURCE_MAP : List (String × String × String) := [
  ("/status", ("ui/status.html", "text/html")),
  ("/status.css", ("ui/status.css", "text/css")),
  ("/status.js", ("ui/status.js", "text/javascript")),
  ("/list", ("ui/root_list.html", "text/html")),
  ("/list.css", ("ui/root_list.css", "text/css")),
  ("/list.js", ("ui/root_list.js", "text/javascript")),
  ("/common.js", ("ui/common.js", "text/javascript")),
  ("/common.css", ("ui/common.css", "text/css")),
  ("/jquery-1.4.2.min.js", ("ui/jquery-1.4.2.min.js", "text/javascript")),
  ("/jquery.treeview.min.js", ("ui/jquery.treeview.min.js", "text/javascript")),
  ("/jquery.cookie.js", ("ui/jquery.cookie.js", "text/javascript")),
  ("/jquery.timeago.js", ("ui/jquery.timeago.js", "text/javascript")),
  ("/jquery.ba-hashchange.min.js",
      ("ui/jquery.ba-hashchange.min.js", "text/javascript")),
  ("/jquery.json.min.js", ("ui/jquery.json.min.js", "text/javascript")),
  ("/jquery.treeview.css", ("ui/jquery.treeview.css", "text/css")),
  ("/treeview-default.gif", ("ui/images/treeview-default.gif", "image/gif")),
  ("/treeview-default-line.gif",
      ("ui/images/treeview-default-line.gif", "image/gif")),
  ("/treeview-black.gif", ("ui/images/treeview-black.gif", "image/gif")),
  ("/treeview-black-line.gif",
      ("ui/images/treeview-black-line.gif", "image/gif")),
  ("/images/treeview-default.gif",
      ("ui/images/treeview-default.gif", "image/gif")),
  ("/images/treeview-default-line.gif",
      ("ui/images/treeview-default-line.gif", "image/gif")),
  ("/images/treeview-black.gif",
      ("ui/images/treeview-black.gif", "image/gif")),
  ("/images/treeview-black-line.gif",
      ("ui/images/treeview-black-line.gif", "image/gif"))]

/-- `resource in _RESOURCE_MAP` / `_RESOURCE_MAP[resource]`: exact-match
lookup in the fixed table. -/
def resourceLookup (resource : String) : Option (String × String) :=
  (_RESOURCE_MAP.find? (fun e => e.fst = resource)).map Prod.snd

/-- Checks whether `pre` is a leading segment of `s`
(used to locate the first occurrence of a separator). -/
def beginsWith : List Char → List Char → Bool
  | [], _ => true
  | _ :: _, [] => false
  | a :: as, b :: bs => a = b && beginsWith as bs

/-- Checks whether `sub` begins at some position of `s`. -/
def containsSubAux (sub : List Char) : List Char → Bool
  | [] => beginsWith sub []
  | c :: rest => beginsWith sub (c :: rest) || containsSubAux sub rest

/-- Checks whether `sub` occurs as a contiguous substring of `s`
(Python's `sub in s`). -/
def containsSubstr (s sub : String) : Bool :=
  containsSubAux sub.toList s.toList

/-- `s.split(sep, 1)` when `sep` occurs in `s`: the text before the first
occurrence of `sep` and everything after it; `none` when `sep` is absent
(where Python's 2-tuple unpacking of the 1-element list would raise). -/
def splitFirst (sep : List Char) (s : List Char) : Option (List Char × List Char) :=
  if beginsWith sep s then some ([], s.drop sep.length)
  else match s with
    | [] => none
    | c :: rest => (splitFirst sep rest).map (fun p => (c :: p.fst, p.snd))

/-- The deployment environment the resolver probes: `os.path.dirname(__file__)`,
`os.path.relpath`, availability and behavior of `pkgutil.get_data`
(`none` models the `AttributeError` branch on Python < 2.6),
`open(path, 'rb').read()`, and `zipfile.ZipFile(f).read(entry)`. -/
structure Env where
  dirname : String
  relpath : String → String
  pkgutil_get_data : Option (String → String)
  read_file : String → String
  zip_read : String → String → String

/-- `os.path.join(dirname, rel)` for a relative `rel` with `os.sep = '/'`. -/
def os_path_join (dir rel : String) : String := dir ++ "/" ++ rel

/-- The `'.zip' + os.sep` separator used both to detect a zipimport
deployment and to split the physical path. -/
def zipSep : String := ".zip/"

/-- The packed branch of the resolver: split `os.path.relpath(path)` on the
first `'.zip/'`, reattach the `'.zip'` suffix to the left part, and read the
right part out of that archive. -/
def zipExtract (env : Env) (path : String) : String :=
  match splitFirst zipSep.toList (env.relpath path).toList with
  | some (zf, zp) => env.zip_read (String.mk zf ++ ".zip") (String.mk zp)
  | none => ""

/-- The byte-loading strategy of `statusui_handler` for a table hit:
if the physical path contains a `'.zip/'` segment, extract from the archive;
otherwise try `pkgutil.get_data` and fall back to a direct file read when
that attribute does not exist. -/
def loadContent (env : Env) (relative_path path : String) : String :=
  if containsSubstr path zipSep then
    zipExtract env path
  else
    match env.pkgutil_get_data with
    | some gd => gd relative_path
    | none => env.read_file path

/-- The loading strategy exactly as the claim words it, kept separate from
`loadContent` (which is translated from the source) so the two can be
compared: attempt the generic packaged-data read first and, only if that
mechanism is unavailable, fall back to direct archive extraction. -/
def loadContent_claimed (env : Env) (relative_path path : String) : String :=
  match env.pkgutil_get_data with
  | some gd => gd relative_path
  | none => zipExtract env path

/-- The early-return auth block of `statusui_handler`: when
`pipeline._ENFORCE_AUTH`, an anonymous caller is redirected to the login
URL and a signed-in non-admin gets an empty 403; `none` means fall through
to resource serving. -/
def statusui_gate (cfg : Config) (users : Users) (req : Request) :
    Option HttpResponse :=
  if cfg.enforce_auth then
    if users.current_user = none then
      some (redirect (users.create_login_url req.uri))
    else if !users.is_current_user_admin then
      some (HttpResponseForbidden "")
    else none
  else none

/-- `statusui_handler(request, resource)`: auth gate, table lookup
(miss → 404), byte loading, and the debug-dependent cache header. -/
def statusui_handler (cfg : Config) (users : Users) (env : Env)
    (req : Request) (resource : String) : HttpResponse :=
  match statusui_gate cfg users req with
  | some resp => resp
  | none =>
    match resourceLookup resource with
    | none => HttpResponseNotFound
    | some (relative_path, content_type) =>
      let path := os_path_join env.dirname relative_path
      let content := loadContent env relative_path path
      let response := mkHttpResponse content (some content_type)
      if !cfg.debug then
        { response with cache_control := some "public, max-age=300" }
      else response

/-- The guard block of `_rpc_handler`'s wrapper: under `_ENFORCE_AUTH` a
non-admin caller (anonymous included) gets 403 `"Forbidden"`; then, unless
`_DEBUG`, a request without the `X-Requested-With` marker gets 403 with the
explanatory body.  `none` means both gates pass. -/
def rpc_gate (cfg : Config) (users : Users) (req : Request) :
    Option HttpResponse :=
  if cfg.enforce_auth && !users.is_current_user_admin then
    some (HttpResponseForbidden "Forbidden")
  else if !cfg.debug && !req.has_xhr_header then
    some (HttpResponseForbidden "Request missing X-Requested-With header")
  else none

/-- The error payload the `except` block builds from a caught exception. -/
def rpc_error_dict (e : PyExc) : PyVal :=
  .dict [("error_class", .str e.cls),
         ("error_message", .str e.msg),
         ("error_traceback", .str e.trace)]

/-- The JSON value that payload encodes to. -/
def rpc_error_json (e : PyExc) : JsonVal :=
  .obj [("error_class", .str e.cls),
        ("error_message", .str e.msg),
        ("error_traceback", .str e.trace)]

/-- The `try`/`except` body of the wrapper: run `func(request)`, serialize
its result; if either step raises, serialize the error payload instead
(which, being all strings, always serializes — the `""` default is dead). -/
def rpc_output (func : Request → Except PyExc PyVal) (req : Request) : String :=
  match (func req).bind json_dumps with
  | .ok s => s
  | .error e =>
    match json_dumps (rpc_error_dict e) with
    | .ok s => s
    | .error _ => ""

/-- `_rpc_handler(func)` applied to a request: gates first; past them, the
contained invocation/serialization, an `application/json` 200, and an
unconditional `no-cache` directive. -/
def _rpc_handler (cfg : Config) (users : Users)
    (func : Request → Except PyExc PyVal) (req : Request) : HttpResponse :=
  match rpc_gate cfg users req with
  | some resp => resp
  | none =>
    { status := 200
      content := rpc_output func req
      content_type := some "application/json"
      cache_control := some "no-cache"
      location := none }

/-- The external pipeline engine, as the three endpoints call it; each call
may raise, and that exception is what the wrapper contains. -/
structure PipelineEngine where
  get_status_tree : Option String → Except PyExc PyVal
  get_pipeline_names : Except PyExc (List String)
  get_root_list : Option String → Option String → Except PyExc PyVal

/-- `treestatus_handler` before wrapping: status tree of the given root. -/
def treestatus_body (engine : PipelineEngine) (req : Request) :
    Except PyExc PyVal :=
  engine.get_status_tree (req.get "root_pipeline_id")

/-- `classpathlist_handler` before wrapping: dict of the known class paths. -/
def classpathlist_body (engine : PipelineEngine) (_req : Request) :
    Except PyExc PyVal :=
  (engine.get_pipeline_names).map
    (fun names => .dict [("classPaths", .list (names.map PyVal.str))])

/-- `rootlist_hanlder` (sic) before wrapping: forwards the optional
`class_path` and `cursor` query parameters to the engine. -/
def rootlist_hanlder (engine : PipelineEngine) (req : Request) :
    Except PyExc PyVal :=
  engine.get_root_list (req.get "class_path") (req.get "cursor")

/-! ### Concrete fixtures used to instantiate the theorems -/

/-- A login-URL builder for the concrete principals below. -/
def loginUrlOf (dest : String) : String :=
  "https://login.example/redirect?dest=" ++ dest

/-- An anonymous caller: no principal signed in. -/
def anonUser : Users := ⟨none, false, loginUrlOf⟩

/-- A signed-in administrator. -/
def adminUser : Users := ⟨some "admin@example.com", true, loginUrlOf⟩

/-- A signed-in caller who is not an administrator. -/
def plainUser : Users := ⟨some "user@example.com", false, loginUrlOf⟩

/-- A packed (zipimport) deployment: `__file__` lives inside `app.zip`, and
the three loading mechanisms return distinguishable bytes. -/
def packedEnv : Env :=
  ⟨"app.zip/pipeline", id, some (fun _ => "PKGDATA"),
   fun _ => "FILEDATA", fun _ _ => "ZIPDATA"⟩

/-- An unpacked deployment with `pkgutil.get_data` available. -/
def looseEnv : Env :=
  ⟨"/srv/app/pipeline", id, some (fun _ => "PKGDATA"),
   fun _ => "FILEDATA", fun _ _ => "ZIPDATA"⟩

/-- An unpacked deployment where `pkgutil.get_data` does not exist. -/
def bareEnv : Env :=
  ⟨"/srv/app/pipeline", id, none, fun _ => "FILEDATA", fun _ _ => "ZIPDATA"⟩

/-- A programmatic request carrying the `X-Requested-With` marker. -/
def xhrReq : Request := ⟨[], true, "https://app.example/status"⟩

/-- A plain browser navigation without the marker header. -/
def navReq : Request := ⟨[], false, "https://app.example/status"⟩

/-- A stub engine whose answers record the arguments they were given. -/
def stubEngine : PipelineEngine :=
  ⟨fun root => .ok (.dict [("root", .str (root.getD "missing"))]),
   .ok ["A.Job", "B.Job"],
   fun cp cur => .ok (.dict [("class_path", .str (cp.getD "nil")),
                             ("cursor", .str (cur.getD "nil"))])⟩

/-! ### Helper lemmas -/

/-- The error payload, being a dict of three strings, always serializes,
to the rendering of the corresponding JSON object. -/
theorem json_dumps_error_dict (e : PyExc) :
    json_dumps (rpc_error_dict e) = .ok (JsonVal.render (rpc_error_json e)) :=
  rfl

/-- When invocation-plus-serialization raises `e`, the wrapper's output is
the rendered error payload for `e`. -/
theorem rpc_output_error (func : Request → Except PyExc PyVal) (req : Request)
    (e : PyExc) (h : (func req).bind json_dumps = .error e) :
    rpc_output func req = JsonVal.render (rpc_error_json e) := by
  simp only [rpc_output, h, json_dumps_error_dict]

/-- Past both gates, the wrapper always produces a 200 `application/json`
response with the contained output and a `no-cache` directive. -/
theorem rpc_handler_pass (cfg : Config) (users : Users)
    (func : Request → Except PyExc PyVal) (req : Request)
    (hgate : rpc_gate cfg users req = none) :
    _rpc_handler cfg users func req =
      { status := 200, content := rpc_output func req,
        content_type := some "application/json",
        cache_control := some "no-cache", location := none } := by
  unfold _rpc_handler
  rw [hgate]

/-- The RPC gate produces nothing but the two 403 denials. -/
theorem rpc_gate_cases (cfg : Config) (users : Users) (req : Request) :
    rpc_gate cfg users req = none ∨
    rpc_gate cfg users req = some (HttpResponseForbidden "Forbidden") ∨
    rpc_gate cfg users req =
      some (HttpResponseForbidden "Request missing X-Requested-With header") := by
  unfold rpc_gate
  split
  · right; left; rfl
  · split
    · right; right; rfl
    · left; rfl

/-- Past the auth gate, `statusui_handler` is lookup, load, cache header. -/
theorem statusui_handler_pass (cfg : Config) (users : Users) (env : Env)
    (req : Request) (resource : String)
    (hgate : statusui_gate cfg users req = none) :
    statusui_handler cfg users env req resource =
      match resourceLookup resource with
      | none => HttpResponseNotFound
      | some (relative_path, content_type) =>
        let content :=
          loadContent env relative_path (os_path_join env.dirname relative_path)
        let response := mkHttpResponse content (some content_type)
        if !cfg.debug then
          { response with cache_control := some "public, max-age=300" }
        else response := by
  unfold statusui_handler
  rw [hgate]

/-- Full characterization of a table hit past the auth gate: 200 with the
loaded bytes, the table's content type, and the debug-dependent cache
directive. -/
theorem statusui_hit (cfg : Config) (users : Users) (env : Env)
    (req : Request) (resource rel ct : String)
    (hgate : statusui_gate cfg users req = none)
    (hhit : resourceLookup resource = some (rel, ct)) :
    statusui_handler cfg users env req resource =
      { status := 200
        content := loadContent env rel (os_path_join env.dirname rel)
        content_type := some ct
        cache_control :=
          if cfg.debug then none else some "public, max-age=300"
        location := none } := by
  rw [statusui_handler_pass cfg users env req resource hgate, hhit]
  cases hd : cfg.debug <;> simp [hd, mkHttpResponse]

/-! ### Claim theorems -/

/-- C1: past the authorization and anti-forgery gates, a handler function
that raises any failure still yields an HTTP 200 response whose body is
well-formed JSON carrying the failure's class name, message and diagnostic
trace under `error_class`, `error_message` and `error_traceback`; the
wrapper (`_rpc_handler`, a total function) never lets the failure
propagate as an unhandled server error. -/
theorem rpc_contains_handler_failures (cfg : Config) (users : Users)
    (func : Request → Except PyExc PyVal) (req : Request) (e : PyExc)
    (hgate : rpc_gate cfg users req = none)
    (hraise : func req = .error e) :
    (_rpc_handler cfg users func req).status = 200 ∧
    (_rpc_handler cfg users func req).content =
      JsonVal.render (rpc_error_json e) ∧
    wellFormedJson (_rpc_handler cfg users func req).content := by
  have hb : (func req).bind json_dumps = .error e := by rw [hraise]; rfl
  have hout : rpc_output func req = JsonVal.render (rpc_error_json e) :=
    rpc_output_error func req e hb
  rw [rpc_handler_pass cfg users func req hgate]
  exact ⟨rfl, hout, ⟨rpc_error_json e, hout.symm⟩⟩

/-- Witness for C1: with both gates off, a handler raising `ValueError`
produces a 200 whose body is the rendered error payload. -/
theorem rpc_contains_handler_failures_witness :
    rpc_gate ⟨false, true⟩ anonUser navReq = none ∧
    ((_rpc_handler ⟨false, true⟩ anonUser
        (fun _ => .error ⟨"ValueError", "boom", "trace text"⟩) navReq).status
        = 200 ∧
     (_rpc_handler ⟨false, true⟩ anonUser
        (fun _ => .error ⟨"ValueError", "boom", "trace text"⟩) navReq).content
        = JsonVal.render (rpc_error_json ⟨"ValueError", "boom", "trace text"⟩) ∧
     wellFormedJson (_rpc_handler ⟨false, true⟩ anonUser
        (fun _ => .error ⟨"ValueError", "boom", "trace text"⟩) navReq).content) :=
  ⟨rfl, rpc_contains_handler_failures ⟨false, true⟩ anonUser
    (fun _ => .error ⟨"ValueError", "boom", "trace text"⟩) navReq
    ⟨"ValueError", "boom", "trace text"⟩ rfl rfl⟩

/-- C2: under `_ENFORCE_AUTH`, a caller who is not a signed-in
administrator — anonymous, or signed in but not admin — receives a 403
with body `"Forbidden"`; the response does not depend on `func`, so the
wrapped handler is never invoked. -/
theorem rpc_auth_gate_denies (cfg : Config) (users : Users)
    (func : Request → Except PyExc PyVal) (req : Request)
    (hauth : cfg.enforce_auth = true)
    (hnotadmin : users.current_user = none ∨ users.user_is_admin = false) :
    _rpc_handler cfg users func req = HttpResponseForbidden "Forbidden" := by
  have hadm : users.is_current_user_admin = false := by
    unfold Users.is_current_user_admin
    rcases hnotadmin with h | h
    · rw [h]; rfl
    · rw [h, Bool.and_false]
  unfold _rpc_handler rpc_gate
  rw [hauth, hadm]
  rfl

/-- Witness for C2: both an anonymous caller and a signed-in non-admin are
denied with body `"Forbidden"`, whatever the handler would have returned. -/
theorem rpc_auth_gate_denies_witness :
    (⟨true, false⟩ : Config).enforce_auth = true ∧
    anonUser.current_user = none ∧
    plainUser.user_is_admin = false ∧
    _rpc_handler ⟨true, false⟩ anonUser
      (fun _ => .ok (.dict [("ok", .bool true)])) xhrReq =
      HttpResponseForbidden "Forbidden" ∧
    _rpc_handler ⟨true, false⟩ plainUser
      (fun _ => .ok (.dict [("ok", .bool true)])) xhrReq =
      HttpResponseForbidden "Forbidden" :=
  ⟨rfl, rfl, rfl,
   rpc_auth_gate_denies ⟨true, false⟩ anonUser
     (fun _ => .ok (.dict [("ok", .bool true)])) xhrReq rfl (Or.inl rfl),
   rpc_auth_gate_denies ⟨true, false⟩ plainUser
     (fun _ => .ok (.dict [("ok", .bool true)])) xhrReq rfl (Or.inr rfl)⟩

/-- C3: past the authorization gate (auth not enforced, or the caller is an
admin — so in particular even for an admin), a request without the
`X-Requested-With` marker is denied with 403 and the explanatory body when
`_DEBUG` is off, without invoking the wrapped handler (the response does
not depend on `func`).  The hypothesis shape records that this gate is
only reached after the authorization gate has passed. -/
theorem rpc_xsrf_gate_denies (cfg : Config) (users : Users)
    (func : Request → Except PyExc PyVal) (req : Request)
    (hauthpass : cfg.enforce_auth = false ∨
      users.is_current_user_admin = true)
    (hdebug : cfg.debug = false)
    (hxhr : req.has_xhr_header = false) :
    _rpc_handler cfg users func req =
      HttpResponseForbidden "Request missing X-Requested-With header" := by
  unfold _rpc_handler rpc_gate
  rw [hdebug, hxhr]
  rcases hauthpass with h | h
  · rw [h]
    rfl
  · rw [h]
    rcases cfg.enforce_auth with _ | _ <;> rfl

/-- Witness for C3: even a signed-in administrator is denied when the
marker header is missing and `_DEBUG` is off. -/
theorem rpc_xsrf_gate_denies_witness :
    adminUser.is_current_user_admin = true ∧
    (⟨true, false⟩ : Config).debug = false ∧
    navReq.has_xhr_header = false ∧
    _rpc_handler ⟨true, false⟩ adminUser
      (fun _ => .ok (.dict [("ok", .bool true)])) navReq =
      HttpResponseForbidden "Request missing X-Requested-With header" :=
  ⟨rfl, rfl, rfl,
   rpc_xsrf_gate_denies ⟨true, false⟩ adminUser
     (fun _ => .ok (.dict [("ok", .bool true)])) navReq (Or.inr rfl) rfl rfl⟩

/-- C10: the `try` block also covers serialization of a successful result:
when `func` returns a mapping that `json.dumps` rejects, the wrapper still
returns the 200 JSON error response for the serialization failure. -/
theorem rpc_contains_serialization_failures (cfg : Config) (users : Users)
    (func : Request → Except PyExc PyVal) (req : Request)
    (d : PyVal) (e : PyExc)
    (hgate : rpc_gate cfg users req = none)
    (hok : func req = .ok d)
    (hser : json_dumps d = .error e) :
    _rpc_handler cfg users func req =
      { status := 200, content := JsonVal.render (rpc_error_json e),
        content_type := some "application/json",
        cache_control := some "no-cache", location := none } := by
  have hb : (func req).bind json_dumps = .error e := by
    rw [hok]
    simpa using hser
  rw [rpc_handler_pass cfg users func req hgate,
      rpc_output_error func req e hb]

/-- Witness for C10: a dict holding an opaque engine object fails to
serialize, and the wrapper reports the resulting `TypeError` as JSON. -/
theorem rpc_contains_serialization_failures_witness :
    rpc_gate ⟨false, true⟩ anonUser navReq = none ∧
    (fun _ : Request => .ok (.dict [("result", .obj "PipelineFuture")])
      : Request → Except PyExc PyVal) navReq
      = .ok (.dict [("result", .obj "PipelineFuture")]) ∧
    json_dumps (.dict [("result", .obj "PipelineFuture")]) =
      .error ⟨"TypeError", "PipelineFuture is not JSON serializable",
        "Traceback (most recent call last): TypeError: " ++
          "PipelineFuture is not JSON serializable"⟩ ∧
    _rpc_handler ⟨false, true⟩ anonUser
      (fun _ => .ok (.dict [("result", .obj "PipelineFuture")])) navReq =
      { status := 200
        content := JsonVal.render (rpc_error_json
          ⟨"TypeError", "PipelineFuture is not JSON serializable",
           "Traceback (most recent call last): TypeError: " ++
             "PipelineFuture is not JSON serializable"⟩)
        content_type := some "application/json"
        cache_control := some "no-cache", location := none } :=
  ⟨rfl, rfl, rfl,
   rpc_contains_serialization_failures ⟨false, true⟩ anonUser
     (fun _ => .ok (.dict [("result", .obj "PipelineFuture")])) navReq
     (.dict [("result", .obj "PipelineFuture")])
     ⟨"TypeError", "PipelineFuture is not JSON serializable",
      "Traceback (most recent call last): TypeError: " ++
        "PipelineFuture is not JSON serializable"⟩ rfl rfl rfl⟩

/-- C4 counterexample: in a packed deployment the packaged-data read is
available, yet the handler serves the archive bytes — so the resolver did
not attempt the packaged-data read first with archive extraction as the
unavailable-fallback, contrary to the claim (whose strategy,
`loadContent_claimed`, would have returned the packaged-data bytes). -/
theorem resolver_order_counterexample :
    packedEnv.pkgutil_get_data.isSome = true ∧
    loadContent_claimed packedEnv "ui/status.html"
      (os_path_join packedEnv.dirname "ui/status.html") = "PKGDATA" ∧
    (statusui_handler ⟨false, true⟩ anonUser packedEnv navReq
      "/status").content = "ZIPDATA" ∧
    ("ZIPDATA" : String) ≠ "PKGDATA" := by
  exact ⟨rfl, rfl, rfl, by decide⟩

/-- C4 amended: on a table hit, the resolver first checks whether the
physical path contains a `'.zip' + os.sep` segment; if so it obtains the
bytes by direct archive extraction (splitting into archive file plus entry
name), regardless of whether the packaged-data read is available;
otherwise it attempts the generic packaged-data read and falls back to a
direct file read (not archive extraction) only when that mechanism is
unavailable. -/
theorem resolver_strategy (cfg : Config) (users : Users) (env : Env)
    (req : Request) (resource rel ct : String) (gd : String → String)
    (hgate : statusui_gate cfg users req = none)
    (hhit : resourceLookup resource = some (rel, ct)) :
    (containsSubstr (os_path_join env.dirname rel) zipSep = true →
      (statusui_handler cfg users env req resource).content =
        zipExtract env (os_path_join env.dirname rel)) ∧
    (containsSubstr (os_path_join env.dirname rel) zipSep = false →
      env.pkgutil_get_data = some gd →
      (statusui_handler cfg users env req resource).content = gd rel) ∧
    (containsSubstr (os_path_join env.dirname rel) zipSep = false →
      env.pkgutil_get_data = none →
      (statusui_handler cfg users env req resource).content =
        env.read_file (os_path_join env.dirname rel)) := by
  rw [statusui_hit cfg users env req resource rel ct hgate hhit]
  refine ⟨fun hz => ?_, fun hz hp => ?_, fun hz hp => ?_⟩
  · simp [loadContent, hz]
  · simp [loadContent, hz, hp]
  · simp [loadContent, hz, hp]

/-- Witness for C4's amended claim: the packed environment extracts from
the archive, the loose one reads packaged data, and the bare one reads the
file directly. -/
theorem resolver_strategy_witness :
    containsSubstr (os_path_join packedEnv.dirname "ui/status.html") zipSep
      = true ∧
    (statusui_handler ⟨false, true⟩ anonUser packedEnv navReq
      "/status").content =
      zipExtract packedEnv (os_path_join packedEnv.dirname
        "ui/status.html") ∧
    (statusui_handler ⟨false, true⟩ anonUser looseEnv navReq
      "/status").content = "PKGDATA" ∧
    (statusui_handler ⟨false, true⟩ anonUser bareEnv navReq
      "/status").content =
      bareEnv.read_file (os_path_join bareEnv.dirname "ui/status.html") := by
  refine ⟨rfl, ?_, ?_, ?_⟩
  · exact (resolver_strategy ⟨false, true⟩ anonUser packedEnv navReq
      "/status" "ui/status.html" "text/html" (fun _ => "PKGDATA")
      rfl rfl).1 rfl
  · exact (resolver_strategy ⟨false, true⟩ anonUser looseEnv navReq
      "/status" "ui/status.html" "text/html" (fun _ => "PKGDATA")
      rfl rfl).2.1 rfl rfl
  · exact (resolver_strategy ⟨false, true⟩ anonUser bareEnv navReq
      "/status" "ui/status.html" "text/html" (fun _ => "PKGDATA")
      rfl rfl).2.2 rfl rfl

/-- C5: past the gates, a static asset response carries
`public, max-age=300` exactly when `_DEBUG` is off and no cache directive
when it is on, while an RPC response (success or error alike — `func` is
arbitrary) always carries `no-cache`, whatever `_DEBUG` is. -/
theorem cache_control_policy (cfg : Config) (users : Users) (env : Env)
    (req : Request) (resource rel ct : String)
    (func : Request → Except PyExc PyVal)
    (hhit : resourceLookup resource = some (rel, ct))
    (hgate1 : statusui_gate cfg users req = none)
    (hgate2 : rpc_gate cfg users req = none) :
    (statusui_handler cfg users env req resource).cache_control =
      (if cfg.debug then none else some "public, max-age=300") ∧
    (_rpc_handler cfg users func req).cache_control = some "no-cache" := by
  rw [statusui_hit cfg users env req resource rel ct hgate1 hhit,
      rpc_handler_pass cfg users func req hgate2]
  exact ⟨rfl, rfl⟩

/-- Witness for C5: with `_DEBUG` off the asset carries the public
directive and with it on it carries none; the RPC response carries
`no-cache` in both configurations, on success and on failure. -/
theorem cache_control_policy_witness :
    (statusui_handler ⟨false, false⟩ anonUser looseEnv xhrReq
      "/status").cache_control = some "public, max-age=300" ∧
    (statusui_handler ⟨false, true⟩ anonUser looseEnv navReq
      "/status").cache_control = none ∧
    (_rpc_handler ⟨false, false⟩ anonUser
      (fun _ => .ok (.dict [("ok", .bool true)])) xhrReq).cache_control =
      some "no-cache" ∧
    (_rpc_handler ⟨false, true⟩ anonUser
      (fun _ => .error ⟨"ValueError", "boom", "tb"⟩) navReq).cache_control =
      some "no-cache" := by
  have h1 := cache_control_policy ⟨false, false⟩ anonUser looseEnv xhrReq
    "/status" "ui/status.html" "text/html"
    (fun _ => .ok (.dict [("ok", .bool true)])) rfl rfl rfl
  have h2 := cache_control_policy ⟨false, true⟩ anonUser looseEnv navReq
    "/status" "ui/status.html" "text/html"
    (fun _ => .error ⟨"ValueError", "boom", "tb"⟩) rfl rfl rfl
  exact ⟨h1.1, h2.1, h1.2, h2.2⟩

/-- C6: past the auth gate, a logical path absent from the fixed table
yields the 404 response, and on a hit the response's content type is
exactly the table entry's — for every environment, hence never derived
from the asset's bytes. -/
theorem resource_lookup_semantics (cfg : Config) (users : Users) (env : Env)
    (req : Request) (resource : String)
    (hgate : statusui_gate cfg users req = none) :
    (resourceLookup resource = none →
      statusui_handler cfg users env req resource = HttpResponseNotFound) ∧
    (∀ rel ct, resourceLookup resource = some (rel, ct) →
      (statusui_handler cfg users env req resource).content_type
        = some ct) := by
  constructor
  · intro hmiss
    rw [statusui_handler_pass cfg users env req resource hgate, hmiss]
  · intro rel ct hhit
    rw [statusui_hit cfg users env req resource rel ct hgate hhit]

/-- Witness for C6: `/nope` is a 404; `/status` is served as `text/html`,
the type its table entry declares. -/
theorem resource_lookup_semantics_witness :
    statusui_gate ⟨false, true⟩ anonUser navReq = none ∧
    statusui_handler ⟨false, true⟩ anonUser looseEnv navReq "/nope" =
      HttpResponseNotFound ∧
    (statusui_handler ⟨false, true⟩ anonUser looseEnv navReq
      "/status").content_type = some "text/html" := by
  refine ⟨rfl, ?_, ?_⟩
  · exact (resource_lookup_semantics ⟨false, true⟩ anonUser looseEnv navReq
      "/nope" rfl).1 rfl
  · exact (resource_lookup_semantics ⟨false, true⟩ anonUser looseEnv navReq
      "/status" rfl).2 "ui/status.html" "text/html" rfl

/-- C7: under enforcement, the resource handler redirects an anonymous
caller to the login flow and denies a signed-in non-admin with a 403,
while the RPC wrapper — under any configuration — never answers with a
redirect to an anonymous caller. -/
theorem resource_redirects_rpc_denies (cfg cfg2 : Config)
    (uAnon uPlain : Users) (name : String) (env : Env) (req : Request)
    (resource : String) (func : Request → Except PyExc PyVal)
    (hauth : cfg.enforce_auth = true)
    (hanon : uAnon.current_user = none)
    (hplain : uPlain.current_user = some name)
    (hnotadmin : uPlain.user_is_admin = false) :
    statusui_handler cfg uAnon env req resource =
      redirect (uAnon.create_login_url req.uri) ∧
    statusui_handler cfg uPlain env req resource =
      HttpResponseForbidden "" ∧
    (_rpc_handler cfg2 uAnon func req).status ≠ 302 ∧
    (_rpc_handler cfg2 uAnon func req).location = none := by
  refine ⟨?_, ?_, ?_⟩
  · unfold statusui_handler statusui_gate
    rw [hauth, hanon]
    rfl
  · unfold statusui_handler statusui_gate Users.is_current_user_admin
    rw [hauth, hplain, hnotadmin]
    rfl
  · rcases rpc_gate_cases cfg2 uAnon req with h | h | h <;>
    · unfold _rpc_handler
      rw [h]
      refine ⟨fun hc => ?_, rfl⟩
      simp [HttpResponseForbidden] at hc

/-- Witness for C7: concrete anonymous and non-admin callers against
`/status`, and an anonymous RPC call that is denied, not redirected. -/
theorem resource_redirects_rpc_denies_witness :
    statusui_handler ⟨true, false⟩ anonUser looseEnv navReq "/status" =
      redirect (anonUser.create_login_url navReq.uri) ∧
    statusui_handler ⟨true, false⟩ plainUser looseEnv navReq "/status" =
      HttpResponseForbidden "" ∧
    (_rpc_handler ⟨true, false⟩ anonUser
      (fun _ => .ok (.dict [("ok", .bool true)])) navReq).status ≠ 302 ∧
    (_rpc_handler ⟨true, false⟩ anonUser
      (fun _ => .ok (.dict [("ok", .bool true)])) navReq).location = none :=
  resource_redirects_rpc_denies ⟨true, false⟩ ⟨true, false⟩ anonUser
    plainUser "user@example.com" looseEnv navReq "/status"
    (fun _ => .ok (.dict [("ok", .bool true)])) rfl rfl rfl rfl

/-- C8: the rootlist endpoint forwards `request.GET.get` values verbatim,
so a request with `cursor` omitted makes exactly the engine call
`get_root_list(class_path_value, None)` — the same call, hence the same
result, as passing `cursor=None` explicitly; likewise for an omitted
`class_path`. -/
theorem rootlist_omitted_params (engine : PipelineEngine)
    (req1 req2 : Request)
    (hc : req1.get "cursor" = none)
    (hp : req2.get "class_path" = none) :
    rootlist_hanlder engine req1 =
      engine.get_root_list (req1.get "class_path") none ∧
    rootlist_hanlder engine req2 =
      engine.get_root_list none (req2.get "cursor") := by
  constructor
  · unfold rootlist_hanlder
    rw [hc]
  · unfold rootlist_hanlder
    rw [hp]

/-- Witness for C8: against the stub engine, a request without a `cursor`
parameter produces the `cursor=None` engine call and result. -/
theorem rootlist_omitted_params_witness :
    (⟨[("class_path", "A.Job")], true, ""⟩ : Request).get "cursor" = none ∧
    (⟨[("cursor", "tok")], true, ""⟩ : Request).get "class_path" = none ∧
    rootlist_hanlder stubEngine ⟨[("class_path", "A.Job")], true, ""⟩ =
      stubEngine.get_root_list (some "A.Job") none ∧
    rootlist_hanlder stubEngine ⟨[("cursor", "tok")], true, ""⟩ =
      stubEngine.get_root_list none (some "tok") := by
  have h := rootlist_omitted_params stubEngine
    ⟨[("class_path", "A.Job")], true, ""⟩
    ⟨[("cursor", "tok")], true, ""⟩ rfl rfl
  exact ⟨rfl, rfl, h.1, h.2⟩

/-- C9: the auth gate of the resource handler runs before the table
lookup, so under enforcement an anonymous caller is redirected to login
for every logical path: the response is independent of whether the path
exists and is never the 404. -/
theorem statusui_gate_precedes_lookup (cfg : Config) (users : Users)
    (env : Env) (req : Request) (r1 r2 : String)
    (hauth : cfg.enforce_auth = true)
    (hanon : users.current_user = none) :
    statusui_handler cfg users env req r1 =
      redirect (users.create_login_url req.uri) ∧
    statusui_handler cfg users env req r1 =
      statusui_handler cfg users env req r2 ∧
    (statusui_handler cfg users env req r1).status ≠ 404 := by
  have h : ∀ r, statusui_handler cfg users env req r =
      redirect (users.create_login_url req.uri) := by
    intro r
    unfold statusui_handler statusui_gate
    rw [hauth, hanon]
    rfl
  refine ⟨h r1, (h r1).trans (h r2).symm, fun hc => ?_⟩
  rw [h r1] at hc
  simp [redirect] at hc

/-- Witness for C9: an anonymous caller gets the same login redirect for
the existing `/status` and the missing `/no-such-resource`. -/
theorem statusui_gate_precedes_lookup_witness :
    statusui_handler ⟨true, false⟩ anonUser looseEnv navReq "/status" =
      redirect (anonUser.create_login_url navReq.uri) ∧
    statusui_handler ⟨true, false⟩ anonUser looseEnv navReq "/status" =
      statusui_handler ⟨true, false⟩ anonUser looseEnv navReq
        "/no-such-resource" ∧
    (statusui_handler ⟨true, false⟩ anonUser looseEnv navReq
      "/status").status ≠ 404 :=
  statusui_gate_precedes_lookup ⟨true, false⟩ anonUser looseEnv navReq
    "/status" "/no-such-resource" rfl rfl

end StatusUI
